import Mathlib

/-!
Verification of the libdill pollset fragment (src/pollset.c) against its
natural-language specification.

Part 1 embeds the preprocessor backend-selection chain of src/pollset.c
(lines 28-41) as a Lean function on build configurations.

Part 2 models, from the specification text, the Descriptor Interest Table
and the wait driver, whose implementations live in the backend include
files (epoll.inc, kqueue.inc, poll.inc) that are not part of this fragment.
-/

set_option autoImplicit false

namespace Pollset

/-- A build configuration: which preprocessor symbols are defined when
src/pollset.c is compiled.  Each field records whether the corresponding
macro is defined. -/
structure BuildConfig where
  dill_epoll : Bool
  dill_kqueue : Bool
  dill_poll : Bool
  dill_no_epoll : Bool
  dill_no_kqueue : Bool
  linux : Bool
  bsd : Bool
  deriving DecidableEq

/-- Guard of line 28: `#if defined DILL_EPOLL`. -/
def guardEpollOverride (c : BuildConfig) : Bool := c.dill_epoll

/-- Guard of line 30: `#elif defined DILL_KQUEUE`. -/
def guardKqueueOverride (c : BuildConfig) : Bool := c.dill_kqueue

/-- Guard of line 32: `#elif defined DILL_POLL`. -/
def guardPollOverride (c : BuildConfig) : Bool := c.dill_poll

/-- Guard of line 35: `#elif 0 && defined __linux__ && !defined DILL_NO_EPOLL`.
The leading `0 &&` is in the source verbatim and makes the guard
constant false. -/
def guardEpollDefault (c : BuildConfig) : Bool :=
  false && c.linux && !c.dill_no_epoll

/-- Guard of line 37: `#elif defined BSD && !defined DILL_NO_KQUEUE`. -/
def guardKqueueDefault (c : BuildConfig) : Bool :=
  c.bsd && !c.dill_no_kqueue

/-- The `#if`/`#elif`/`#else` chain of src/pollset.c lines 28-41: each
branch body (an `#include` of one backend file) is emitted exactly when its
guard holds and no earlier guard held.  The result is the list of backend
files included into the translation unit, in textual order. -/
def includedFiles (c : BuildConfig) : List String :=
  (if guardEpollOverride c then ["epoll.inc"] else []) ++
  (if !guardEpollOverride c && guardKqueueOverride c then ["kqueue.inc"] else []) ++
  (if !guardEpollOverride c && !guardKqueueOverride c && guardPollOverride c
    then ["poll.inc"] else []) ++
  (if !guardEpollOverride c && !guardKqueueOverride c && !guardPollOverride c
      && guardEpollDefault c then ["epoll.inc"] else []) ++
  (if !guardEpollOverride c && !guardKqueueOverride c && !guardPollOverride c
      && !guardEpollDefault c && guardKqueueDefault c then ["kqueue.inc"] else []) ++
  (if !guardEpollOverride c && !guardKqueueOverride c && !guardPollOverride c
      && !guardEpollDefault c && !guardKqueueDefault c then ["poll.inc"] else [])

/-- A Linux build configuration with no override flags and no feature
flags: `__linux__` defined, nothing else. -/
def cfgLinuxDefault : BuildConfig :=
  { dill_epoll := false, dill_kqueue := false, dill_poll := false,
    dill_no_epoll := false, dill_no_kqueue := false, linux := true, bsd := false }

/-- A build configuration with two override flags at once:
`DILL_EPOLL` and `DILL_KQUEUE` both defined. -/
def cfgEpollAndKqueue : BuildConfig :=
  { dill_epoll := true, dill_kqueue := true, dill_poll := false,
    dill_no_epoll := false, dill_no_kqueue := false, linux := false, bsd := false }

end Pollset

namespace Pollset

/-- C1: for every combination of build flags and platform macros, the
backend selector includes exactly one of the three backend files — never
zero and never more than one. -/
theorem backend_selector_exactly_one (c : BuildConfig) :
    (includedFiles c).length = 1 ∧
    includedFiles c ⊆ ["epoll.inc", "kqueue.inc", "poll.inc"] := by
  obtain ⟨e, k, p, ne, nk, l, b⟩ := c
  cases e <;> cases k <;> cases p <;> cases ne <;> cases nk <;> cases l <;> cases b <;> decide

/-- C2: an explicit configuration override wins over platform detection:
if DILL_EPOLL is defined the epoll backend is included; otherwise if
DILL_KQUEUE is defined the kqueue backend is included; otherwise if
DILL_POLL is defined the poll backend is included — regardless of the
platform macros and of DILL_NO_EPOLL / DILL_NO_KQUEUE. -/
theorem override_wins (c : BuildConfig) :
    (c.dill_epoll = true → includedFiles c = ["epoll.inc"]) ∧
    (c.dill_epoll = false → c.dill_kqueue = true →
      includedFiles c = ["kqueue.inc"]) ∧
    (c.dill_epoll = false → c.dill_kqueue = false → c.dill_poll = true →
      includedFiles c = ["poll.inc"]) := by
  obtain ⟨e, k, p, ne, nk, l, b⟩ := c
  cases e <;> cases k <;> cases p <;> cases ne <;> cases nk <;> cases l <;> cases b <;> decide

/-- Witness for C2: the three override cases at concrete configurations. -/
theorem override_wins_witness :
    includedFiles ⟨true, false, false, true, true, true, true⟩ = ["epoll.inc"] ∧
    includedFiles ⟨false, true, false, true, true, true, true⟩ = ["kqueue.inc"] ∧
    includedFiles ⟨false, false, true, true, true, true, true⟩ = ["poll.inc"] :=
  ⟨(override_wins ⟨true, false, false, true, true, true, true⟩).1 rfl,
   (override_wins ⟨false, true, false, true, true, true, true⟩).2.1 rfl rfl,
   (override_wins ⟨false, false, true, true, true, true, true⟩).2.2 rfl rfl rfl⟩

/-- C6: DILL_NO_EPOLL never influences backend selection: flipping it,
with all other flags fixed, yields the same included file. -/
theorem no_epoll_flag_irrelevant (c : BuildConfig) (b : Bool) :
    includedFiles { c with dill_no_epoll := b } = includedFiles c := by
  obtain ⟨e, k, p, ne, nk, l, bs⟩ := c
  cases e <;> cases k <;> cases p <;> cases ne <;> cases nk <;> cases l <;> cases bs <;> cases b <;> decide

/-- Counterexample to C3: on a Linux platform with no override flags and
no feature flags, the selector includes poll.inc, not epoll.inc — the
epoll default branch on line 35 is disabled by its constant-false guard. -/
theorem linux_default_counterexample :
    cfgLinuxDefault.dill_epoll = false ∧ cfgLinuxDefault.dill_kqueue = false ∧
    cfgLinuxDefault.dill_poll = false ∧ cfgLinuxDefault.linux = true ∧
    includedFiles cfgLinuxDefault ≠ ["epoll.inc"] ∧
    includedFiles cfgLinuxDefault = ["poll.inc"] := by
  decide

/-- C3 (amended): when no override flag is defined, the epoll default
branch is dead (constant-false guard), so __linux__ is ignored: on a BSD
platform without DILL_NO_KQUEUE the kqueue backend is included, and on
any other platform — Linux included — the portable poll backend is
included. -/
theorem default_selection (c : BuildConfig)
    (he : c.dill_epoll = false) (hk : c.dill_kqueue = false)
    (hp : c.dill_poll = false) :
    (c.bsd = true → c.dill_no_kqueue = false → includedFiles c = ["kqueue.inc"]) ∧
    ((c.bsd && !c.dill_no_kqueue) = false → includedFiles c = ["poll.inc"]) := by
  obtain ⟨e, k, p, ne, nk, l, b⟩ := c
  cases e <;> cases k <;> cases p <;> cases ne <;> cases nk <;> cases l <;>
    cases b <;> simp_all <;> decide

/-- Witness for C3 (amended): the BSD default and the Linux fallback at
concrete configurations. -/
theorem default_selection_witness :
    includedFiles ⟨false, false, false, false, false, false, true⟩ = ["kqueue.inc"] ∧
    includedFiles cfgLinuxDefault = ["poll.inc"] :=
  ⟨(default_selection ⟨false, false, false, false, false, false, true⟩
      rfl rfl rfl).1 rfl rfl,
   (default_selection cfgLinuxDefault rfl rfl rfl).2 rfl⟩

/-- Counterexample to C4: with DILL_EPOLL and DILL_KQUEUE both defined,
the chain silently includes exactly epoll.inc; the source contains no
error directive, so the build does not fail. -/
theorem multiple_overrides_counterexample :
    cfgEpollAndKqueue.dill_epoll = true ∧ cfgEpollAndKqueue.dill_kqueue = true ∧
    includedFiles cfgEpollAndKqueue = ["epoll.inc"] ∧
    (includedFiles cfgEpollAndKqueue).length = 1 := by
  decide

/-- C4 (amended): if two or more of the override flags are defined at the
same time, the build does not fail; the first defined flag in the textual
order DILL_EPOLL, DILL_KQUEUE, DILL_POLL silently wins and exactly one
backend file is included. -/
theorem multiple_overrides_silent (c : BuildConfig)
    (h : (c.dill_epoll || c.dill_kqueue || c.dill_poll) = true) :
    (includedFiles c).length = 1 ∧
    includedFiles c =
      (if c.dill_epoll then ["epoll.inc"]
       else if c.dill_kqueue then ["kqueue.inc"] else ["poll.inc"]) := by
  obtain ⟨e, k, p, ne, nk, l, b⟩ := c
  cases e <;> cases k <;> cases p <;> cases ne <;> cases nk <;> cases l <;>
    cases b <;> simp_all <;> decide

/-- Witness for C4 (amended): both DILL_EPOLL and DILL_KQUEUE defined. -/
theorem multiple_overrides_silent_witness :
    (includedFiles cfgEpollAndKqueue).length = 1 ∧
    includedFiles cfgEpollAndKqueue =
      (if cfgEpollAndKqueue.dill_epoll then ["epoll.inc"]
       else if cfgEpollAndKqueue.dill_kqueue then ["kqueue.inc"]
       else ["poll.inc"]) :=
  multiple_overrides_silent cfgEpollAndKqueue rfl

/-- C5: with no override flags and BSD defined, DILL_NO_KQUEUE selects
poll.inc instead of kqueue.inc; without DILL_NO_KQUEUE, kqueue.inc is
included. -/
theorem bsd_no_kqueue_flag (c : BuildConfig)
    (he : c.dill_epoll = false) (hk : c.dill_kqueue = false)
    (hp : c.dill_poll = false) (hb : c.bsd = true) :
    (c.dill_no_kqueue = true → includedFiles c = ["poll.inc"]) ∧
    (c.dill_no_kqueue = false → includedFiles c = ["kqueue.inc"]) := by
  obtain ⟨e, k, p, ne, nk, l, b⟩ := c
  cases e <;> cases k <;> cases p <;> cases ne <;> cases nk <;> cases l <;>
    cases b <;> simp_all <;> decide

/-- Witness for C5: both values of DILL_NO_KQUEUE on a BSD default
configuration. -/
theorem bsd_no_kqueue_flag_witness :
    includedFiles ⟨false, false, false, false, true, false, true⟩ = ["poll.inc"] ∧
    includedFiles ⟨false, false, false, false, false, false, true⟩ = ["kqueue.inc"] :=
  ⟨(bsd_no_kqueue_flag ⟨false, false, false, false, true, false, true⟩
      rfl rfl rfl rfl).1 rfl,
   (bsd_no_kqueue_flag ⟨false, false, false, false, false, false, true⟩
      rfl rfl rfl rfl).2 rfl⟩

end Pollset

namespace Pollset

/-- Modelled from the spec: an interest flag, one element of the event
class set over read-ready and write-ready (spec section 3, Interest
Flags).  The implementations live in the backend include files, which are
not part of this fragment. -/
inductive Flag where
  | read
  | write
  deriving DecidableEq

/-- Modelled from the spec: a set of interest flags — a subset of
read-ready, write-ready (spec section 3). -/
structure Flags where
  rd : Bool
  wr : Bool
  deriving DecidableEq

/-- The empty flag set. -/
def Flags.empty : Flags := ⟨false, false⟩

/-- Membership of a flag in a flag set. -/
def Flags.has (fs : Flags) : Flag → Bool
  | .read => fs.rd
  | .write => fs.wr

/-- Add one flag to a flag set. -/
def Flags.set (fs : Flags) : Flag → Flags
  | .read => ⟨true, fs.wr⟩
  | .write => ⟨fs.rd, true⟩

/-- Remove one flag from a flag set. -/
def Flags.clear (fs : Flags) : Flag → Flags
  | .read => ⟨false, fs.wr⟩
  | .write => ⟨fs.rd, false⟩

/-- Whether a flag set is empty. -/
def Flags.isEmpty (fs : Flags) : Bool := !fs.rd && !fs.wr

/-- Intersection of two flag sets. -/
def Flags.inter (a b : Flags) : Flags := ⟨a.rd && b.rd, a.wr && b.wr⟩

/-- Boolean subset test on flag sets. -/
def Flags.subset (a b : Flags) : Bool := (!a.rd || b.rd) && (!a.wr || b.wr)

/-- Modelled from the spec: one Interest Table entry — a descriptor
handle, its registered interest flags, and the opaque caller tag (spec
section 3, Interest Table). -/
structure Entry where
  fd : Int
  flags : Flags
  tag : Nat
  deriving DecidableEq

/-- Modelled from the spec: the Descriptor Interest Table, a mapping from
descriptor handles to registered flags and tag, here an association list
keyed by descriptor. -/
abbrev Table := List Entry

/-- Modelled from the spec: the error taxonomy of spec section 7 —
InvalidDescriptor and BackendError carrying the OS error code.  Timeout
is not an error and has no constructor here. -/
inductive PollError where
  | invalidDescriptor
  | backendError (errno : Nat)
  deriving DecidableEq

/-- Add a flag for a descriptor in the table: update the existing entry
if present, otherwise append a fresh entry. -/
def setEntry : Table → Int → Flag → Nat → Table
  | [], fd, f, tag => [⟨fd, Flags.empty.set f, tag⟩]
  | e :: rest, fd, f, tag =>
    if e.fd = fd then ⟨fd, e.flags.set f, tag⟩ :: rest
    else e :: setEntry rest fd f tag

/-- Modelled from the spec: register(descriptor, flag, tag) adds the flag
to the descriptor interest set, associating the tag; idempotent if
already present; fails with InvalidDescriptor if the descriptor is
negative (spec section 4.2). -/
def register (t : Table) (fd : Int) (f : Flag) (tag : Nat) :
    Except PollError Table :=
  if fd < 0 then .error .invalidDescriptor else .ok (setEntry t fd f tag)

/-- Remove a flag for a descriptor in the table; if the resulting flag
set is empty the entry is purged. -/
def clearEntry : Table → Int → Flag → Table
  | [], _, _ => []
  | e :: rest, fd, f =>
    if e.fd = fd then
      if (e.flags.clear f).isEmpty then rest
      else ⟨e.fd, e.flags.clear f, e.tag⟩ :: rest
    else e :: clearEntry rest fd f

/-- Modelled from the spec: unregister(descriptor, flag) removes the
flag; if the resulting interest set is empty the descriptor entry is
purged; a no-op if the flag was never set (spec section 4.2). -/
def unregister (t : Table) (fd : Int) (f : Flag) : Table := clearEntry t fd f

/-- Modelled from the spec: lookup(descriptor) returns the registered
flags and tag, or absent (spec section 4.2). -/
def lookup : Table → Int → Option (Flags × Nat)
  | [], _ => none
  | e :: rest, fd => if e.fd = fd then some (e.flags, e.tag) else lookup rest fd

/-- Whether a given flag is currently registered for a descriptor. -/
def flagRegistered (t : Table) (fd : Int) (f : Flag) : Bool :=
  match lookup t fd with
  | some (fs, _) => fs.has f
  | none => false

/-- Modelled from the spec: a Ready Event — descriptor handle, fired
flags, caller tag (spec section 3). -/
structure ReadyEvent where
  fd : Int
  fired : Flags
  tag : Nat
  deriving DecidableEq

/-- Modelled from the spec: the event-draining half of wait — given the
Interest Table and an oracle giving the event classes actually ready on
each descriptor, report one Ready Event per registered descriptor whose
registered flags intersect the ready classes, carrying exactly that
intersection and the registered tag (spec sections 3 and 4.3). -/
def fireEvents (t : Table) (ready : Int → Flags) : List ReadyEvent :=
  t.filterMap fun e =>
    if (e.flags.inter (ready e.fd)).isEmpty then none
    else some ⟨e.fd, e.flags.inter (ready e.fd), e.tag⟩

/-- Modelled from the spec: the outcome of one raw backend wait attempt —
events fired, the timeout elapsed, a signal interrupted the wait, or the
native mechanism failed with an OS error code (spec sections 4.3 and 7). -/
inductive RawOutcome where
  | events (es : List ReadyEvent)
  | timedOut
  | interrupted
  | failed (errno : Nat)
  deriving DecidableEq

/-- Modelled from the spec: the result of the blocking wait as seen by
the caller.  The interrupted constructor exists so that the policy that
it is never returned is a statement, not a typing accident. -/
inductive WaitResult where
  | ok (es : List ReadyEvent)
  | interrupted
  | failed (errno : Nat)
  deriving DecidableEq

/-- Modelled from the spec: the wait retry loop of spec section 7 — the
raw backend wait is attempted; a signal interruption is swallowed and the
wait retried with the remaining timeout budget (each interrupted attempt
consumes at least one tick of the budget, and an exhausted budget is a
timeout); events and timeout return successfully; a backend failure is
surfaced immediately, never retried.  The oracle gives the raw outcome of
each attempt. -/
def waitLoop (raw : Nat → RawOutcome) : Nat → Nat → WaitResult
  | _, 0 => .ok []
  | attempt, remaining + 1 =>
    match raw attempt with
    | .events es => .ok es
    | .timedOut => .ok []
    | .failed e => .failed e
    | .interrupted => waitLoop raw (attempt + 1) remaining

end Pollset

namespace Pollset

/-- Adding a flag twice is the same as adding it once. -/
theorem Flags.set_set (fs : Flags) (f : Flag) : (fs.set f).set f = fs.set f := by
  cases f <;> rfl

/-- After clearing a flag, the flag is absent. -/
theorem Flags.has_clear (fs : Flags) (f : Flag) : (fs.clear f).has f = false := by
  cases f <;> rfl

/-- An intersection of flag sets is a subset of its left operand. -/
theorem Flags.inter_subset_left (a b : Flags) : (a.inter b).subset a = true := by
  obtain ⟨x, y⟩ := a
  obtain ⟨z, w⟩ := b
  cases x <;> cases y <;> cases z <;> cases w <;> rfl

/-- A descriptor absent from the key list of a table looks up to none. -/
theorem lookup_eq_none_of_not_mem (t : Table) (fd : Int)
    (h : fd ∉ t.map Entry.fd) : lookup t fd = none := by
  induction t with
  | nil => rfl
  | cons e rest ih =>
    simp only [List.map_cons, List.mem_cons] at h
    push_neg at h
    simp only [lookup]
    rw [if_neg fun hh => h.1 hh.symm, ih h.2]

/-- A table entry with a different key is transparent to flagRegistered. -/
theorem flagRegistered_cons_ne (e : Entry) (ts : Table) (fd : Int) (f : Flag)
    (h : ¬ e.fd = fd) : flagRegistered (e :: ts) fd f = flagRegistered ts fd f := by
  simp [flagRegistered, lookup, h]

/-- setEntry is idempotent on the same descriptor, flag and tag. -/
theorem setEntry_setEntry (t : Table) (fd : Int) (f : Flag) (tag : Nat) :
    setEntry (setEntry t fd f tag) fd f tag = setEntry t fd f tag := by
  induction t with
  | nil => simp [setEntry, Flags.set_set]
  | cons e rest ih =>
    by_cases h : e.fd = fd
    · simp [setEntry, h, Flags.set_set]
    · simp [setEntry, h, ih]

/-- Clearing a flag right after setting it leaves the flag unregistered,
on any table with distinct descriptor keys. -/
theorem flagRegistered_clear_set (t : Table) (fd : Int) (f : Flag) (tag : Nat)
    (hnd : (t.map Entry.fd).Nodup) :
    flagRegistered (clearEntry (setEntry t fd f tag) fd f) fd f = false := by
  induction t with
  | nil =>
    cases f <;>
      simp [setEntry, clearEntry, flagRegistered, Flags.empty, Flags.set,
        Flags.clear, Flags.isEmpty, lookup]
  | cons e rest ih =>
    simp only [List.map_cons, List.nodup_cons] at hnd
    by_cases h : e.fd = fd
    · subst h
      simp only [setEntry, if_pos rfl, clearEntry, if_pos rfl]
      by_cases hemp : ((e.flags.set f).clear f).isEmpty
      · rw [if_pos hemp]
        simp [flagRegistered, lookup_eq_none_of_not_mem rest e.fd hnd.1]
      · rw [if_neg hemp]
        simp [flagRegistered, lookup, Flags.has_clear]
    · simp only [setEntry, if_neg h, clearEntry, if_neg h]
      rw [flagRegistered_cons_ne e _ fd f h]
      exact ih hnd.2

/-- C8: register is idempotent on an already present descriptor-flag
pair: registering the same pair twice equals registering it once, and a
single subsequent unregister of that flag removes it. -/
theorem register_idempotent (t : Table) (fd : Int) (f : Flag) (tag : Nat)
    (hnd : (t.map Entry.fd).Nodup) :
    ((register t fd f tag).bind fun u => register u fd f tag) =
      register t fd f tag ∧
    (∀ u, register t fd f tag = Except.ok u →
      flagRegistered (unregister u fd f) fd f = false) := by
  constructor
  · unfold register
    by_cases h : fd < 0
    · simp [h, Except.bind]
    · simp [h, Except.bind, setEntry_setEntry]
  · intro u hu
    unfold register at hu
    by_cases h : fd < 0
    · simp [h] at hu
    · simp [h] at hu
      subst hu
      unfold unregister
      exact flagRegistered_clear_set t fd f tag hnd

/-- Witness for C8: a concrete nodup table, descriptor 3, the read flag. -/
theorem register_idempotent_witness :
    (((register [] 3 Flag.read 7).bind fun u => register u 3 Flag.read 7) =
      register [] 3 Flag.read 7) ∧
    flagRegistered (unregister (setEntry [] 3 Flag.read 7) 3 Flag.read)
      3 Flag.read = false :=
  ⟨(register_idempotent [] 3 Flag.read 7 (by decide)).1,
   (register_idempotent [] 3 Flag.read 7 (by decide)).2
     (setEntry [] 3 Flag.read 7) rfl⟩

/-- C7: every Ready Event reported by the event-draining step carries a
non-empty fired set that is a subset of the flags registered for that
descriptor, together with the registered tag. -/
theorem fired_subset_registered (t : Table) (ready : Int → Flags)
    (ev : ReadyEvent) (hev : ev ∈ fireEvents t ready) :
    ev.fired.isEmpty = false ∧
    ∃ e ∈ t, e.fd = ev.fd ∧ ev.fired.subset e.flags = true ∧ ev.tag = e.tag := by
  unfold fireEvents at hev
  rw [List.mem_filterMap] at hev
  obtain ⟨e, he, hfe⟩ := hev
  by_cases hemp : (e.flags.inter (ready e.fd)).isEmpty
  · rw [if_pos hemp] at hfe
    exact absurd hfe (by simp)
  · rw [if_neg hemp] at hfe
    injection hfe with h
    subst h
    refine ⟨by simpa using hemp, e, he, rfl, ?_, rfl⟩
    exact Flags.inter_subset_left e.flags (ready e.fd)

/-- Witness for C7: one watched descriptor, read interest, peer ready for
both classes; the reported event fires only the read class. -/
theorem fired_subset_registered_witness :
    ((⟨0, ⟨true, false⟩, 5⟩ : ReadyEvent) ∈
      fireEvents [⟨0, ⟨true, false⟩, 5⟩] (fun _ => ⟨true, true⟩)) ∧
    (⟨true, false⟩ : Flags).isEmpty = false :=
  ⟨by decide,
   ((fired_subset_registered [⟨0, ⟨true, false⟩, 5⟩] (fun _ => ⟨true, true⟩)
      ⟨0, ⟨true, false⟩, 5⟩ (by decide)).1)⟩

/-- The wait retry loop never returns the interrupted result. -/
theorem waitLoop_ne_interrupted (raw : Nat → RawOutcome) :
    ∀ remaining attempt, waitLoop raw attempt remaining ≠ WaitResult.interrupted := by
  intro remaining
  induction remaining with
  | zero => intro attempt; simp [waitLoop]
  | succ n ih =>
    intro attempt
    simp only [waitLoop]
    cases hr : raw attempt <;> simp
    exact ih (attempt + 1)

/-- C10: a signal interruption during a blocking wait never surfaces to
the caller; it is retried with the remaining budget decremented; a
backend failure is surfaced immediately and never retried. -/
theorem signal_retry_policy (raw : Nat → RawOutcome) (attempt remaining : Nat) :
    waitLoop raw attempt remaining ≠ WaitResult.interrupted ∧
    (∀ e, raw attempt = RawOutcome.failed e → 0 < remaining →
      waitLoop raw attempt remaining = WaitResult.failed e) ∧
    (raw attempt = RawOutcome.interrupted → 0 < remaining →
      waitLoop raw attempt remaining = waitLoop raw (attempt + 1) (remaining - 1)) := by
  refine ⟨waitLoop_ne_interrupted raw remaining attempt, ?_, ?_⟩
  · intro e he hrem
    obtain ⟨n, rfl⟩ : ∃ n, remaining = n + 1 :=
      ⟨remaining - 1, (Nat.succ_pred_eq_of_pos hrem).symm⟩
    simp [waitLoop, he]
  · intro hi hrem
    obtain ⟨n, rfl⟩ : ∃ n, remaining = n + 1 :=
      ⟨remaining - 1, (Nat.succ_pred_eq_of_pos hrem).symm⟩
    simp [waitLoop, hi]

/-- An oracle whose first wait attempt is interrupted by a signal and
whose second attempt fails with OS error code 7. -/
def rawIntrThenFail : Nat → RawOutcome :=
  fun n => if n = 0 then RawOutcome.interrupted else RawOutcome.failed 7

/-- Witness for C10: under rawIntrThenFail with budget 2, the wait is
retried once after the interruption and surfaces the backend failure. -/
theorem signal_retry_policy_witness :
    waitLoop rawIntrThenFail 0 2 ≠ WaitResult.interrupted ∧
    waitLoop rawIntrThenFail 0 2 = waitLoop rawIntrThenFail 1 1 ∧
    waitLoop rawIntrThenFail 1 1 = WaitResult.failed 7 :=
  ⟨(signal_retry_policy rawIntrThenFail 0 2).1,
   (signal_retry_policy rawIntrThenFail 0 2).2.2 rfl (by decide),
   (signal_retry_policy rawIntrThenFail 1 1).2.1 7 rfl (by decide)⟩

/-- C9: when the timeout elapses before any registered interest fires —
either the backend reports the timeout or the retry budget runs out — the
wait returns an empty event sequence as a successful result, not an
error. -/
theorem timeout_empty_success (raw : Nat → RawOutcome) (attempt remaining : Nat) :
    waitLoop raw attempt 0 = WaitResult.ok [] ∧
    (raw attempt = RawOutcome.timedOut → 0 < remaining →
      waitLoop raw attempt remaining = WaitResult.ok []) := by
  constructor
  · simp [waitLoop]
  · intro ht hrem
    obtain ⟨n, rfl⟩ : ∃ n, remaining = n + 1 :=
      ⟨remaining - 1, (Nat.succ_pred_eq_of_pos hrem).symm⟩
    simp [waitLoop, ht]

/-- Witness for C9: an oracle that always reports the timeout elapsed. -/
theorem timeout_empty_success_witness :
    waitLoop (fun _ => RawOutcome.timedOut) 0 5 = WaitResult.ok [] :=
  (timeout_empty_success (fun _ => RawOutcome.timedOut) 0 5).2 rfl (by decide)

end Pollset
